import Mathlib

/-!
A shallow embedding of the validation core of the `social-event` repository
(`src/utils/functions.js`): the metadata extractor `extractFileMetadata`, the
creation-time validator `validateFileCreationTime`, the event time-range
validator `validateEventTimes`, and the process-wide default configuration
`DEFAULT_VALIDATION_CONFIG`.

Modelling conventions:
* JavaScript numbers that the code only adds, subtracts, multiplies, divides
  and compares are modelled as `ℚ` (file sizes, config bounds) or `Int`
  (epoch milliseconds); every value involved stays far below 2^53, where JS
  float arithmetic on them is exact.
* Absent object properties are `Option.none`; the JS truthiness tests
  `!file.name`, `!file.mimetype`, `!file.size`, `!file.data` are modelled
  field by field: a missing field, the empty string and the number 0 are
  falsy, while a binary buffer is an object and hence truthy exactly when
  present.
* Calls into external libraries and built-ins (`ExifReader.load`,
  `new Date(string)` parsing, `parseInt`, the current clock) are oracles
  collected in a `JsEnv` record; theorems quantify over the oracle and
  witnesses instantiate it with concrete functions.  A `new Date(string)`
  or `parseInt` result of `NaN` / an invalid date is `none`.
* `new Date(y, m, d, hh, mi)` is modelled by exact Gregorian day arithmetic
  (`daysFromCivil`, valid for calendar months 1..12, i.e. for the
  well-formed inputs the spec covers) in a fixed-offset clock frame; the
  code only compares such values with each other and with "now", so the
  constant local-zone offset cancels.
* A thrown JS exception surfaces as `Except.error` / `Option.none`.
  `toISOString` normalisation is injective, so the `details` record of the
  creation-time validator stores the underlying millisecond values.
* An EXIF tag is identified with its `description` string (a present tag
  object with a truthy, i.e. nonempty, description); string splitting,
  prefix testing and `Number` parsing are spelled out on code-point lists
  (`splitSep`, `strStartsWith`, `decIntOfChars`) with the semantics of the
  JS built-ins on the well-formed inputs the spec covers.
-/

namespace SocialEvent

/-- The binary content of an uploaded file (a byte buffer). -/
abbrev FileData := List Nat

/-- The EXIF-style tag table produced by `ExifReader.load`; each field is the
`description` of the corresponding tag when the tag is present. -/
structure ExifTags where
  DateTimeOriginal : Option String := none
  CreateDate : Option String := none
  ModifyDate : Option String := none
  DateTime : Option String := none
  Quality : Option String := none
  Make : Option String := none
  Model : Option String := none
  ISO : Option String := none
deriving DecidableEq

/-- The external JavaScript environment: `ExifReader.load` (`none` models a
throw), `new Date(string)` parsing to epoch milliseconds (`none` models an
invalid date), `parseInt` (`none` models `NaN`), and the current clock. -/
structure JsEnv where
  exifLoad : FileData → Option ExifTags
  parseDate : String → Option Int
  parseIntStr : String → Option Int
  now : Int

/-- `ValidationConfig` from `src/utils/functions.js`. -/
structure ValidationConfig where
  maxFileSizeInMB : ℚ
  minImageWidth : ℚ
  minImageHeight : ℚ
  timeBufferMinutes : Int
  allowedMimeTypes : List String
  requireOriginalPhoto : Bool
  minQualityScore : ℚ
deriving DecidableEq

/-- `DEFAULT_VALIDATION_CONFIG` from `src/utils/functions.js` lines 6-14,
transcribed verbatim (including the `"IMG_"` entry of `allowedMimeTypes`). -/
def DEFAULT_VALIDATION_CONFIG : ValidationConfig :=
  { maxFileSizeInMB := 10
    minImageWidth := 800
    minImageHeight := 600
    timeBufferMinutes := 60
    allowedMimeTypes := ["image/jpeg", "image/png", "IMG_", "image/heic", "image/heif"]
    requireOriginalPhoto := false
    minQualityScore := 1 / 2 }

/-- `RawFile`: the untrusted upload.  A field is `none` when absent. -/
structure RawFile where
  name : Option String
  mimetype : Option String
  size : Option ℚ
  data : Option FileData
  lastModifiedDate : Option Int := none

/-- `FileMetadata`, the extractor's output.  `createdAt` is in epoch
milliseconds; `qualityScore` is `none` for JS `null` and `some none` for a
`NaN` produced by `parseInt` on a non-numeric quality description. -/
structure FileMetadata where
  originalName : String
  mimetype : String
  size : ℚ
  sizeInMB : ℚ
  dimensions : Option (ℚ × ℚ)
  qualityScore : Option (Option ℚ)
  possibleCreationSources : List String
  createdAt : Option Int
  cameraMake : Option String
  cameraModel : Option String
  iso : Option String
  validationErrors : List String
  validationWarnings : List String
deriving DecidableEq

/-- `Number.prototype.toFixed(2)` on the nonnegative sizes the extractor
formats: round half up at two decimal places and print `i.ff`. -/
def toFixed2 (q : ℚ) : String :=
  let scaled : Int := Rat.floor (q * 100 + 1 / 2)
  let ip := Int.fdiv scaled 100
  let fp := (scaled - ip * 100).toNat
  let ipStr := toString ip
  let fpStr := if fp < 10 then "0" ++ toString fp else toString fp
  s!"{ipStr}.{fpStr}"

/-- The size-exceeded validation error (functions.js lines 41-43). -/
def sizeExceededMsg (sizeInMB maxMB : ℚ) : String :=
  let szStr := toFixed2 sizeInMB
  let maxStr := toString maxMB
  s!"File size ({szStr}MB) exceeds maximum allowed size of {maxStr}MB"

/-- The type-not-allowed validation error (functions.js lines 48-50). -/
def typeNotAllowedMsg (mt : String) (allowed : List String) : String :=
  let allowedStr := String.intercalate ", " allowed
  s!"File type {mt} is not allowed. Allowed types: {allowedStr}"

/-- The warning pushed when `ExifReader.load` throws (functions.js line 101). -/
def noExifWarnMsg : String := "No EXIF data found"

/-- The blocking error of the current-time fallback under
`requireOriginalPhoto` (functions.js lines 117-119). -/
def noVerifyErrMsg : String :=
  "Could not verify original photo creation time. Please upload original photos directly from your camera/phone."

/-- The advisory warning of the current-time fallback (functions.js
lines 121-123). -/
def currentTimeWarnMsg : String :=
  "Using current time as creation time - this may not reflect when the photo was actually taken"

/-- Whether the first list is a prefix of the second (on code points). -/
def charsPrefix : List Char → List Char → Bool
  | [], _ => true
  | _ :: _, [] => false
  | a :: as, b :: bs => if a = b then charsPrefix as bs else false

/-- `String.prototype.startsWith` on code points. -/
def strStartsWith (s p : String) : Bool := charsPrefix p.data s.data

/-- The numeric value of a decimal digit. -/
def digit? (c : Char) : Option Nat :=
  if c = '0' then some 0 else if c = '1' then some 1 else if c = '2' then some 2
  else if c = '3' then some 3 else if c = '4' then some 4 else if c = '5' then some 5
  else if c = '6' then some 6 else if c = '7' then some 7 else if c = '8' then some 8
  else if c = '9' then some 9 else none

/-- Reads a digit string left to right; `none` (`NaN`) on a non-digit. -/
def digitsToNatAux : List Char → Nat → Option Nat
  | [], acc => some acc
  | c :: rest, acc =>
    match digit? c with
    | none => none
    | some dg => digitsToNatAux rest (acc * 10 + dg)

/-- `Number(s)` on the canonical (optionally negated) decimal strings of
well-formed inputs; `none` models `NaN` elsewhere. -/
def decIntOfChars : List Char → Option Int
  | [] => none
  | '-' :: rest => (digitsToNatAux rest 0).map fun n => -(n : Int)
  | l => (digitsToNatAux l 0).map fun n => (n : Int)

/-- `Number` on a string argument. -/
def strToInt (s : String) : Option Int := decIntOfChars s.data

/-- `String.prototype.split` with a one-character separator (keeps empty
segments, like JS). -/
def splitSepAux (sep : Char) : List Char → List Char → List (List Char)
  | [], acc => [acc.reverse]
  | c :: rest, acc =>
    if c = sep then acc.reverse :: splitSepAux sep rest []
    else splitSepAux sep rest (c :: acc)

/-- `s.split(sep)` as a list of code-point lists. -/
def splitSep (s : String) (sep : Char) : List (List Char) :=
  splitSepAux sep s.data []

/-- The loop body condition of the EXIF date search: the tag is present with
a truthy description that parses to a valid date. -/
def usableDate (env : JsEnv) : Option String → Bool
  | none => false
  | some d => if d = "" then false else (env.parseDate d).isSome

/-- The date-bearing fields in the fixed priority order of functions.js
lines 73-78. -/
def dateFieldDescriptions (tags : ExifTags) : List (Option String) :=
  [tags.DateTimeOriginal, tags.CreateDate, tags.ModifyDate, tags.DateTime]

/-- The `for ... break` loop of functions.js lines 80-94: return the parse of
the first field that is present with a truthy, parseable description. -/
def findExifDate (env : JsEnv) : List (Option String) → Option Int
  | [] => none
  | d? :: rest =>
    match d? with
    | none => findExifDate env rest
    | some d =>
      if d = "" then findExifDate env rest
      else
        match env.parseDate d with
        | none => findExifDate env rest
        | some ts => some ts

/-- `parseInt(tags.Quality.description) / 100` (functions.js lines 88-90);
`none` is JS `null` (no Quality tag), `some none` is `NaN`. -/
def exifQuality (env : JsEnv) (tags : ExifTags) : Option (Option ℚ) :=
  match tags.Quality with
  | none => none
  | some d => some ((env.parseIntStr d).map fun q => (q : ℚ) / 100)

/-- The size check of functions.js lines 40-44: the error list it contributes. -/
def sizeCheckErrors (config : ValidationConfig) (sz : ℚ) : List String :=
  if config.maxFileSizeInMB < sz / (1024 * 1024) then
    [sizeExceededMsg (sz / (1024 * 1024)) config.maxFileSizeInMB]
  else []

/-- The MIME-type check of functions.js lines 47-51: the error list it
contributes. -/
def typeCheckErrors (config : ValidationConfig) (mt : String) : List String :=
  if config.allowedMimeTypes.contains mt then []
  else [typeNotAllowedMsg mt config.allowedMimeTypes]

/-- The result of the image branch of functions.js lines 69-103. -/
structure ExifOutcome where
  createdAt : Option Int
  sources : List String
  qualityScore : Option (Option ℚ)
  cameraMake : Option String
  cameraModel : Option String
  iso : Option String
  warnings : List String

/-- The image branch (functions.js lines 69-103): for image MIME types, try
`ExifReader.load`; a throw yields only the no-EXIF warning; a successful load
runs the date search (which also derives the quality score at its success
point) and copies camera make/model/ISO unconditionally. -/
def exifStep (env : JsEnv) (mt : String) (dt : FileData) : ExifOutcome :=
  if strStartsWith mt "image/" then
    match env.exifLoad dt with
    | none =>
      { createdAt := none, sources := [], qualityScore := none,
        cameraMake := none, cameraModel := none, iso := none,
        warnings := [noExifWarnMsg] }
    | some tags =>
      let found := findExifDate env (dateFieldDescriptions tags)
      { createdAt := found
        sources := if found.isSome then ["EXIF"] else []
        qualityScore := if found.isSome then exifQuality env tags else none
        cameraMake := tags.Make
        cameraModel := tags.Model
        iso := tags.ISO
        warnings := [] }
  else
    { createdAt := none, sources := [], qualityScore := none,
      cameraMake := none, cameraModel := none, iso := none, warnings := [] }

/-- The body of the `try` block of `extractFileMetadata` (functions.js
lines 25-127) after the required-property guard: size check, MIME check,
image branch, then the `lastModifiedDate` and current-time fallbacks. -/
def buildMetadata (env : JsEnv) (config : ValidationConfig) (nm mt : String)
    (sz : ℚ) (dt : FileData) (lmd : Option Int) : FileMetadata :=
  let sizeInMB : ℚ := sz / (1024 * 1024)
  let sizeErrs : List String := sizeCheckErrors config sz
  let typeErrs : List String := typeCheckErrors config mt
  let e := exifStep env mt dt
  match e.createdAt, lmd with
  | some c, _ =>
    { originalName := nm, mimetype := mt, size := sz, sizeInMB := sizeInMB,
      dimensions := none, qualityScore := e.qualityScore,
      possibleCreationSources := e.sources, createdAt := some c,
      cameraMake := e.cameraMake, cameraModel := e.cameraModel, iso := e.iso,
      validationErrors := sizeErrs ++ typeErrs,
      validationWarnings := e.warnings }
  | none, some lm =>
    { originalName := nm, mimetype := mt, size := sz, sizeInMB := sizeInMB,
      dimensions := none, qualityScore := e.qualityScore,
      possibleCreationSources := e.sources ++ ["lastModifiedDate"],
      createdAt := some lm,
      cameraMake := e.cameraMake, cameraModel := e.cameraModel, iso := e.iso,
      validationErrors := sizeErrs ++ typeErrs,
      validationWarnings := e.warnings }
  | none, none =>
    if config.requireOriginalPhoto then
      { originalName := nm, mimetype := mt, size := sz, sizeInMB := sizeInMB,
        dimensions := none, qualityScore := e.qualityScore,
        possibleCreationSources := e.sources ++ ["current"],
        createdAt := some env.now,
        cameraMake := e.cameraMake, cameraModel := e.cameraModel, iso := e.iso,
        validationErrors := sizeErrs ++ typeErrs ++ [noVerifyErrMsg],
        validationWarnings := e.warnings }
    else
      { originalName := nm, mimetype := mt, size := sz, sizeInMB := sizeInMB,
        dimensions := none, qualityScore := e.qualityScore,
        possibleCreationSources := e.sources ++ ["current"],
        createdAt := some env.now,
        cameraMake := e.cameraMake, cameraModel := e.cameraModel, iso := e.iso,
        validationErrors := sizeErrs ++ typeErrs,
        validationWarnings := e.warnings ++ [currentTimeWarnMsg] }

/-- `extractFileMetadata` (functions.js lines 16-132).  The two `throw`
statements of the guard are `Except.error`; once the guard passes nothing in
the `try` body can throw (the internal `ExifReader.load` throw is caught at
lines 100-102), so the result is `Except.ok` of the accumulated metadata. -/
def extractFileMetadata (env : JsEnv) (file : Option RawFile)
    (config : ValidationConfig := DEFAULT_VALIDATION_CONFIG) :
    Except String FileMetadata :=
  match file with
  | none => Except.error "Missing required parameter - file"
  | some f =>
    match f.name, f.mimetype, f.size, f.data with
    | some nm, some mt, some sz, some dt =>
      if nm = "" ∨ mt = "" ∨ sz = 0 then
        Except.error "Invalid file object - missing required properties"
      else
        Except.ok (buildMetadata env config nm mt sz dt f.lastModifiedDate)
    | _, _, _, _ => Except.error "Invalid file object - missing required properties"

/-- The success message of `validateFileCreationTime` (functions.js
line 163). -/
def validTimeMsg (src : String) : String :=
  s!"File creation time is valid (detected via {src})"

/-- The failure message of `validateFileCreationTime` (functions.js
line 164): the minute count and the violated side. -/
def invalidTimeMsg (off : Int) (dir : String) : String :=
  let o := toString off
  s!"File was created {o} minutes {dir} the allowed time window"

/-- The `details` record of a `TimeValidationResult`; `fileCreatedAt`,
`eventStart` and `eventEnd` hold the millisecond values whose (injective)
`toISOString` rendering the code stores. -/
structure TimeDetails where
  fileCreatedAt : Int
  eventStart : Int
  eventEnd : Int
  creationSource : Option String
  timeOffset : Option Int
  message : String
deriving DecidableEq

/-- The result of `validateFileCreationTime`. -/
structure TimeValidationResult where
  isValid : Bool
  createdAt : Int
  details : TimeDetails
deriving DecidableEq

/-- `validateFileCreationTime` (functions.js lines 134-167).  A metadata with
`createdAt = null` makes `createdAt.toISOString()` throw a TypeError, hence
`none`; otherwise the buffered window, verdict, floored minute offset and
message are computed as in the source. -/
def validateFileCreationTime (fileMetadata : FileMetadata)
    (eventStart eventEnd : Int)
    (config : ValidationConfig := DEFAULT_VALIDATION_CONFIG) :
    Option TimeValidationResult :=
  match fileMetadata.createdAt with
  | none => none
  | some createdAt =>
    let creationSource := fileMetadata.possibleCreationSources.head?
    let bufferedEventStart := eventStart - config.timeBufferMinutes * 60 * 1000
    let bufferedEventEnd := eventEnd + config.timeBufferMinutes * 60 * 1000
    let isValid := decide (bufferedEventStart ≤ createdAt) && decide (createdAt ≤ bufferedEventEnd)
    let timeOffset : Option Int :=
      if isValid then none
      else if createdAt < bufferedEventStart then
        some (Int.fdiv (bufferedEventStart - createdAt) (1000 * 60))
      else
        some (Int.fdiv (createdAt - bufferedEventEnd) (1000 * 60))
    let csStr := creationSource.getD "undefined"
    let message :=
      if isValid then validTimeMsg csStr
      else
        invalidTimeMsg (timeOffset.getD 0)
          (if createdAt < bufferedEventStart then "before" else "after")
    some
      { isValid := isValid, createdAt := createdAt,
        details :=
          { fileCreatedAt := createdAt, eventStart := eventStart,
            eventEnd := eventEnd, creationSource := creationSource,
            timeOffset := timeOffset, message := message } }

/-- JS `<` between two Date values via their numeric time values; an invalid
date (`none`, time value `NaN`) makes every comparison false. -/
def jsLt : Option Int → Option Int → Bool
  | some a, some b => decide (a < b)
  | _, _ => false

/-- JS `===` between the `getTime()` values of two Dates; `NaN === x` is
false. -/
def jsEqT : Option Int → Option Int → Bool
  | some a, some b => decide (a = b)
  | _, _ => false

/-- Days since 1970-01-01 of the Gregorian date `(y, m, d)`, exact for
calendar months `1 ≤ m ≤ 12` (all well-formed inputs). -/
def daysFromCivil (y m d : Int) : Int :=
  let y2 := if m ≤ 2 then y - 1 else y
  let era := Int.fdiv y2 400
  let yoe := y2 - era * 400
  let mp := Int.emod (m + 9) 12
  let doy := Int.fdiv (153 * mp + 2) 5 + d - 1
  let doe := yoe * 365 + Int.fdiv yoe 4 - Int.fdiv yoe 100 + doy
  era * 146097 + doe - 719468

/-- `Number(parts[i])`: a missing part is `undefined` (`NaN`); otherwise the
canonical decimal string parses with `decIntOfChars` (`none` models `NaN`). -/
def numAt (parts : List (List Char)) (i : Nat) : Option Int :=
  match parts[i]? with
  | none => none
  | some s => decIntOfChars s

/-- `new Date(year, month - 1, day, hours, minutes).getTime()` in the fixed
local frame; any `NaN` component gives an invalid date (`none`).  The month
argument is the 1-based calendar month (the source passes `month - 1` to the
0-based constructor). -/
def mkDateMillis (y mo d hh mi : Option Int) : Option Int :=
  match y, mo, d, hh, mi with
  | some y, some mo, some d, some hh, some mi =>
    some ((daysFromCivil y mo d * 1440 + hh * 60 + mi) * 60000)
  | _, _, _, _, _ => none

/-- `new Date(startYear, startMonth - 1, startDay)` after splitting a
`YYYY-MM-DD` string (functions.js lines 178-182). -/
def dateOnlyMillis (dateStr : String) : Option Int :=
  let p := splitSep dateStr '-'
  mkDateMillis (numAt p 0) (numAt p 1) (numAt p 2) (some 0) (some 0)

/-- `combineDateAndTime` (functions.js lines 171-175). -/
def combineDateAndTime (dateStr timeStr : String) : Option Int :=
  let p := splitSep dateStr '-'
  let t := splitSep timeStr ':'
  mkDateMillis (numAt p 0) (numAt p 1) (numAt p 2) (numAt t 0) (numAt t 1)

/-- The current moment, given by its local calendar components: year, 1-based
month, day of month, and the elapsed milliseconds of the current day. -/
structure NowClock where
  year : Int
  month : Int
  day : Int
  millisOfDay : Int

/-- `new Date(now.getFullYear(), now.getMonth(), now.getDate()).getTime()`:
local midnight of the current day (functions.js lines 191-195). -/
def todayMillis (c : NowClock) : Int :=
  daysFromCivil c.year c.month c.day * 86400000

/-- `new Date().getTime()`: the current moment. -/
def nowMillis (c : NowClock) : Int :=
  todayMillis c + c.millisOfDay

/-- Error message of the start-date-in-the-past check (line 205). -/
def startPastMsg : String := "Start date cannot be in the past"

/-- Error message of the end-date-before-start-date check (line 211). -/
def endBeforeStartMsg : String := "End date cannot be before start date"

/-- Error message of the start-time-already-passed check (line 219). -/
def startTimePastMsg : String :=
  "Start time cannot be in the past for today's date. You can create 1 mins ahead of your current time if the event has started already!!"

/-- Error message of the same-day end-before-start-time check (line 226). -/
def endTimeBeforeMsg : String := "End time cannot be before start time on the same day"

/-- The result of `validateEventTimes`. -/
structure EventTimeValidationResult where
  isValid : Bool
  errors : List String
deriving DecidableEq

/-- `validateEventTimes` (functions.js lines 169-230), parameterised by the
current moment.  Each of the four checks runs unconditionally; a failing
check clears `isValid` and appends its own error string. -/
def validateEventTimes (clock : NowClock)
    (startDate endDate startTime endTime : String) : EventTimeValidationResult :=
  let startD := dateOnlyMillis startDate
  let endD := dateOnlyMillis endDate
  let startTimeObj := combineDateAndTime startDate startTime
  let endTimeObj := combineDateAndTime endDate endTime
  let todayD := todayMillis clock
  let nowM := nowMillis clock
  let c1 := jsLt startD (some todayD)
  let c2 := jsLt endD startD
  let c3 := jsEqT startD (some todayD) && jsLt startTimeObj (some nowM)
  let c4 := decide (startDate = endDate) && jsLt endTimeObj startTimeObj
  { isValid := !c1 && !c2 && !c3 && !c4
    errors :=
      (if c1 then [startPastMsg] else []) ++
      (if c2 then [endBeforeStartMsg] else []) ++
      (if c3 then [startTimePastMsg] else []) ++
      (if c4 then [endTimeBeforeMsg] else []) }

/-- Whether extraction returned (rather than threw). -/
def resultOk : Except String FileMetadata → Bool
  | Except.ok _ => true
  | Except.error _ => false

/-- The accumulated warnings of a returned extraction (`[]` on a throw). -/
def warningsOfResult : Except String FileMetadata → List String
  | Except.ok m => m.validationWarnings
  | Except.error _ => []

/-- The quality score of a returned extraction (`none` on a throw). -/
def qualityOfResult : Except String FileMetadata → Option (Option ℚ)
  | Except.ok m => m.qualityScore
  | Except.error _ => none

/-- A concrete environment in which `ExifReader.load` throws and no string
parses as a date or integer. -/
def envPlain : JsEnv :=
  { exifLoad := fun _ => none, parseDate := fun _ => none,
    parseIntStr := fun _ => none, now := 1000 }

/-- A file whose four required properties are all present but whose `size`
is the (falsy) number 0. -/
def fileZeroSize : RawFile :=
  { name := some "a.jpg", mimetype := some "image/jpeg", size := some 0,
    data := some [1], lastModifiedDate := none }

/-- A well-formed image upload. -/
def imageFile : RawFile :=
  { name := some "a.jpg", mimetype := some "image/jpeg", size := some 4,
    data := some [1], lastModifiedDate := none }

/-- A tag table with no tags at all. -/
def emptyTags : ExifTags := {}

/-- An environment whose metadata read succeeds but yields no usable field. -/
def envEmptyTags : JsEnv :=
  { exifLoad := fun _ => some emptyTags, parseDate := fun _ => none,
    parseIntStr := fun _ => none, now := 5 }

/-- A tag table carrying only a numeric `Quality` tag and no date field. -/
def tagsQualityOnly : ExifTags := { Quality := some "85" }

/-- An environment whose metadata read yields `tagsQualityOnly`. -/
def envQualityOnly : JsEnv :=
  { exifLoad := fun _ => some tagsQualityOnly, parseDate := fun _ => none,
    parseIntStr := strToInt, now := 5 }

/-- A tag table whose first date field is absent and whose second
(`CreateDate`) carries the parseable description. -/
def tagsSecondDate : ExifTags :=
  { CreateDate := some "2024:06:01 10:00:00", ModifyDate := some "later" }

/-- An environment for `tagsSecondDate`: only the `CreateDate` description
parses. -/
def envSecondDate : JsEnv :=
  { exifLoad := fun _ => some tagsSecondDate,
    parseDate := fun s => if s = "2024:06:01 10:00:00" then some 1717236000000 else none,
    parseIntStr := fun _ => none, now := 7 }

/-- A tag table with both a parseable `DateTimeOriginal` and a `Quality`
tag. -/
def tagsQualityDate : ExifTags :=
  { DateTimeOriginal := some "2024-06-01T10:00:00", Quality := some "85" }

/-- An environment for `tagsQualityDate`. -/
def envQualityDate : JsEnv :=
  { exifLoad := fun _ => some tagsQualityDate,
    parseDate := fun s => if s = "2024-06-01T10:00:00" then some 1717236000000 else none,
    parseIntStr := strToInt, now := 9 }

/-- The metadata produced for `imageFile` under `envPlain` and the default
configuration. -/
def sampleMetadata : FileMetadata :=
  buildMetadata envPlain DEFAULT_VALIDATION_CONFIG "a.jpg" "image/jpeg" 4 [1] none

/-- A metadata whose creation time is 07:59 on the clock whose 09:00 is
millisecond 32400000 (the spec's worked creation-time example). -/
def metaSevenFiftyNine : FileMetadata :=
  { originalName := "a.jpg", mimetype := "image/jpeg", size := 4,
    sizeInMB := 4 / (1024 * 1024), dimensions := none, qualityScore := none,
    possibleCreationSources := ["EXIF"], createdAt := some 28740000,
    cameraMake := none, cameraModel := none, iso := none,
    validationErrors := [], validationWarnings := [] }

/-- A concrete current moment: 2024-06-15, 10:00 local time. -/
def clockW : NowClock :=
  { year := 2024, month := 6, day := 15, millisOfDay := 36000000 }

/-- Once the required-property guard passes, extraction returns the
accumulated metadata. -/
theorem extract_some_eq_build (env : JsEnv) (config : ValidationConfig)
    (nm mt : String) (sz : ℚ) (dt : FileData) (lmd : Option Int)
    (hnm : nm ≠ "") (hmt : mt ≠ "") (hsz : sz ≠ 0) :
    extractFileMetadata env (some ⟨some nm, some mt, some sz, some dt, lmd⟩) config =
      Except.ok (buildMetadata env config nm mt sz dt lmd) := by
  simp [extractFileMetadata, hnm, hmt, hsz]

/-- The date-search loop skips a field that is absent, has a falsy
description, or does not parse. -/
theorem findExifDate_cons_of_unusable (env : JsEnv) (x : Option String)
    (rest : List (Option String)) (h : usableDate env x = false) :
    findExifDate env (x :: rest) = findExifDate env rest := by
  cases x with
  | none => rfl
  | some d =>
    by_cases hd : d = ""
    · simp [findExifDate, hd]
    · cases hp : env.parseDate d with
      | none => simp [findExifDate, hd, hp]
      | some ts => simp [usableDate, hd, hp] at h

/-- The date-search loop stops at a present field whose truthy description
parses. -/
theorem findExifDate_cons_of_parse (env : JsEnv) (d : String)
    (rest : List (Option String)) (ts : Int) (hd : d ≠ "")
    (hp : env.parseDate d = some ts) :
    findExifDate env (some d :: rest) = some ts := by
  simp [findExifDate, hd, hp]

/-- Skipping an unusable prefix of the field list. -/
theorem findExifDate_append_unusable (env : JsEnv)
    (pre rest : List (Option String))
    (h : ∀ x ∈ pre, usableDate env x = false) :
    findExifDate env (pre ++ rest) = findExifDate env rest := by
  induction pre with
  | nil => rfl
  | cons x xs ih =>
    have hx : usableDate env x = false := h x (List.mem_cons_self x xs)
    have hxs : ∀ y ∈ xs, usableDate env y = false :=
      fun y hy => h y (List.mem_cons_of_mem x hy)
    rw [List.cons_append, findExifDate_cons_of_unusable env x _ hx, ih hxs]

/-- The image branch records `"EXIF"` as the sole provenance exactly when
the date search succeeded. -/
theorem exifStep_sources_eq (env : JsEnv) (mt : String) (dt : FileData) :
    (exifStep env mt dt).sources =
      if (exifStep env mt dt).createdAt.isSome then ["EXIF"] else [] := by
  cases hb : strStartsWith mt "image/"
  · simp [exifStep, hb]
  · cases hl : env.exifLoad dt with
    | none => simp [exifStep, hb, hl]
    | some tags =>
      cases hf : findExifDate env (dateFieldDescriptions tags) <;>
        simp [exifStep, hb, hl, hf]

/-- The image branch emits the no-EXIF warning exactly when the load threw
on an image file. -/
theorem exifStep_warnings_eq (env : JsEnv) (mt : String) (dt : FileData) :
    (exifStep env mt dt).warnings =
      if strStartsWith mt "image/" = true ∧ env.exifLoad dt = none then
        [noExifWarnMsg]
      else [] := by
  cases hb : strStartsWith mt "image/"
  · simp [exifStep, hb]
  · cases hl : env.exifLoad dt with
    | none => simp [exifStep, hb, hl]
    | some tags =>
      cases hf : findExifDate env (dateFieldDescriptions tags) <;>
        simp [exifStep, hb, hl, hf]

/-- A throwing load yields no EXIF creation date. -/
theorem exifStep_createdAt_of_load_none (env : JsEnv) (mt : String)
    (dt : FileData) (h : env.exifLoad dt = none) :
    (exifStep env mt dt).createdAt = none := by
  cases hb : strStartsWith mt "image/" <;> simp [exifStep, hb, h]

/-- The fallback chain never touches the quality score derived by the image
branch. -/
theorem buildMetadata_qualityScore (env : JsEnv) (config : ValidationConfig)
    (nm mt : String) (sz : ℚ) (dt : FileData) (lmd : Option Int) :
    (buildMetadata env config nm mt sz dt lmd).qualityScore =
      (exifStep env mt dt).qualityScore := by
  unfold buildMetadata
  cases hc : (exifStep env mt dt).createdAt <;> cases lmd <;>
    cases hr : config.requireOriginalPhoto <;> simp [hc, hr]

/-- The warnings of the returned metadata: those of the image branch, plus
the current-time warning exactly when the current-time fallback ran without
`requireOriginalPhoto`. -/
theorem buildMetadata_warnings (env : JsEnv) (config : ValidationConfig)
    (nm mt : String) (sz : ℚ) (dt : FileData) (lmd : Option Int) :
    (buildMetadata env config nm mt sz dt lmd).validationWarnings =
      (exifStep env mt dt).warnings ++
        (if (exifStep env mt dt).createdAt = none ∧ lmd = none ∧
            config.requireOriginalPhoto = false then [currentTimeWarnMsg]
         else []) := by
  unfold buildMetadata
  cases hc : (exifStep env mt dt).createdAt <;> cases lmd <;>
    cases hr : config.requireOriginalPhoto <;> simp [hc, hr]

/-- The errors of the returned metadata: the size and type findings, plus
the cannot-verify error exactly when the current-time fallback ran under
`requireOriginalPhoto`. -/
theorem buildMetadata_errors (env : JsEnv) (config : ValidationConfig)
    (nm mt : String) (sz : ℚ) (dt : FileData) (lmd : Option Int) :
    (buildMetadata env config nm mt sz dt lmd).validationErrors =
      sizeCheckErrors config sz ++ typeCheckErrors config mt ++
        (if (exifStep env mt dt).createdAt = none ∧ lmd = none ∧
            config.requireOriginalPhoto = true then [noVerifyErrMsg]
         else []) := by
  unfold buildMetadata
  cases hc : (exifStep env mt dt).createdAt <;> cases lmd <;>
    cases hr : config.requireOriginalPhoto <;> simp [hc, hr]

/-- Claim C1, counterexample: the default `allowedMimeTypes` is not the set
{image/jpeg, image/png, image/heic, image/heif} — it also contains the
literal `"IMG_"`. -/
theorem defaultAllowedMimeTypes_ne_spec_set :
    "IMG_" ∈ DEFAULT_VALIDATION_CONFIG.allowedMimeTypes ∧
    "IMG_" ∉ (["image/jpeg", "image/png", "image/heic", "image/heif"] : List String) ∧
    ¬ (∀ s : String, s ∈ DEFAULT_VALIDATION_CONFIG.allowedMimeTypes ↔
        s ∈ (["image/jpeg", "image/png", "image/heic", "image/heif"] : List String)) := by
  refine ⟨by decide, by decide, fun h => ?_⟩
  exact absurd ((h "IMG_").mp (by decide)) (by decide)

/-- Claim C1 (amended): the process-wide default configuration has
maxFileSizeInMB 10, minImageWidth 800, minImageHeight 600,
timeBufferMinutes 60, requireOriginalPhoto false, minQualityScore 0.5, and
allowedMimeTypes [image/jpeg, image/png, IMG_, image/heic, image/heif]. -/
theorem default_config_values :
    DEFAULT_VALIDATION_CONFIG.maxFileSizeInMB = 10 ∧
    DEFAULT_VALIDATION_CONFIG.minImageWidth = 800 ∧
    DEFAULT_VALIDATION_CONFIG.minImageHeight = 600 ∧
    DEFAULT_VALIDATION_CONFIG.timeBufferMinutes = 60 ∧
    DEFAULT_VALIDATION_CONFIG.allowedMimeTypes =
      ["image/jpeg", "image/png", "IMG_", "image/heic", "image/heif"] ∧
    DEFAULT_VALIDATION_CONFIG.requireOriginalPhoto = false ∧
    DEFAULT_VALIDATION_CONFIG.minQualityScore = 1 / 2 :=
  ⟨rfl, rfl, rfl, rfl, rfl, rfl, rfl⟩

/-- Claim C2, counterexample: a file whose four required properties are all
present, with `size = 0`, still makes extraction raise the input error (JS
truthiness treats the present number 0 as missing). -/
theorem extract_raises_on_present_zero_size :
    fileZeroSize.name.isSome = true ∧ fileZeroSize.mimetype.isSome = true ∧
    fileZeroSize.size.isSome = true ∧ fileZeroSize.data.isSome = true ∧
    resultOk (extractFileMetadata envPlain (some fileZeroSize)
      DEFAULT_VALIDATION_CONFIG) = false := by
  refine ⟨rfl, rfl, rfl, rfl, ?_⟩
  decide

/-- Claim C2 (amended): extraction returns a `FileMetadata` exactly when the
file is present and its `name`, `mimetype`, `size` and `data` are present
and truthy (name and mimetype nonempty, size nonzero); in every other case
it raises the input error. -/
theorem extract_ok_iff_required_fields_truthy (env : JsEnv)
    (file : Option RawFile) (config : ValidationConfig) :
    (∃ m, extractFileMetadata env file config = Except.ok m) ↔
      (∃ f, file = some f ∧
        (∃ nm, f.name = some nm ∧ nm ≠ "") ∧
        (∃ mt, f.mimetype = some mt ∧ mt ≠ "") ∧
        (∃ sz, f.size = some sz ∧ sz ≠ 0) ∧
        f.data.isSome = true) := by
  cases file with
  | none => simp [extractFileMetadata]
  | some f =>
    obtain ⟨n, m, s, d, l⟩ := f
    cases n <;> cases m <;> cases s <;> cases d <;>
      simp [extractFileMetadata]
    case some.some.some.some n m s d =>
      by_cases hg : n = "" ∨ m = "" ∨ s = 0
      · simp [hg]
        tauto
      · push_neg at hg
        simp [hg, hg.1, hg.2.1, hg.2.2]

/-- Claim C3: on an image file whose metadata read succeeds, the first date
field (in the order DateTimeOriginal, CreateDate, ModifyDate, DateTime) that
is present with a parseable description becomes `createdAt`, `"EXIF"` is the
sole entry of `possibleCreationSources`, and nothing later (neither the
remaining fields nor the fallback chain) overwrites either. -/
theorem exif_first_parseable_date_wins (env : JsEnv) (config : ValidationConfig)
    (nm mt : String) (sz : ℚ) (dt : FileData) (lmd : Option Int)
    (tags : ExifTags) (pre post : List (Option String)) (d : String) (ts : Int)
    (hnm : nm ≠ "") (hsz : sz ≠ 0)
    (himg : strStartsWith mt "image/" = true)
    (hload : env.exifLoad dt = some tags)
    (hsplit : dateFieldDescriptions tags = pre ++ some d :: post)
    (hpre : ∀ x ∈ pre, usableDate env x = false)
    (hd : d ≠ "") (hp : env.parseDate d = some ts) :
    ∃ m, extractFileMetadata env (some ⟨some nm, some mt, some sz, some dt, lmd⟩) config =
        Except.ok m ∧ m.createdAt = some ts ∧
        m.possibleCreationSources = ["EXIF"] := by
  have hmt : mt ≠ "" := by
    intro h
    rw [h] at himg
    exact absurd himg (by decide)
  have hfind : findExifDate env (dateFieldDescriptions tags) = some ts := by
    rw [hsplit, findExifDate_append_unusable env pre _ hpre,
      findExifDate_cons_of_parse env d post ts hd hp]
  refine ⟨buildMetadata env config nm mt sz dt lmd,
    extract_some_eq_build env config nm mt sz dt lmd hnm hmt hsz, ?_, ?_⟩ <;>
    simp [buildMetadata, exifStep, himg, hload, hfind]

/-- Witness for C3: `DateTimeOriginal` absent, `CreateDate` parseable — the
second field's timestamp wins and `"EXIF"` is the sole provenance. -/
theorem exif_first_parseable_date_wins_witness :
    envSecondDate.exifLoad [1] = some tagsSecondDate ∧
    usableDate envSecondDate tagsSecondDate.DateTimeOriginal = false ∧
    envSecondDate.parseDate "2024:06:01 10:00:00" = some 1717236000000 ∧
    (∃ m, extractFileMetadata envSecondDate
        (some ⟨some "a.jpg", some "image/jpeg", some 4, some [1], none⟩)
        DEFAULT_VALIDATION_CONFIG = Except.ok m ∧
      m.createdAt = some 1717236000000 ∧
      m.possibleCreationSources = ["EXIF"]) :=
  ⟨rfl, rfl, by decide,
    exif_first_parseable_date_wins envSecondDate DEFAULT_VALIDATION_CONFIG
      "a.jpg" "image/jpeg" 4 [1] none tagsSecondDate [none]
      [some "later", none] "2024:06:01 10:00:00" 1717236000000
      (by decide) (by decide) (by decide) rfl rfl (by decide) (by decide)
      (by decide)⟩

/-- Claim C4, counterexample: an image file whose metadata read succeeds but
yields no usable date field gets no no-EXIF-data warning (the warning only
comes from the catch branch), although extraction still returns. -/
theorem noExif_warning_missing_when_load_succeeds :
    envEmptyTags.exifLoad [1] = some emptyTags ∧
    findExifDate envEmptyTags (dateFieldDescriptions emptyTags) = none ∧
    resultOk (extractFileMetadata envEmptyTags (some imageFile)
      DEFAULT_VALIDATION_CONFIG) = true ∧
    noExifWarnMsg ∉ warningsOfResult (extractFileMetadata envEmptyTags
      (some imageFile) DEFAULT_VALIDATION_CONFIG) := by
  exact ⟨rfl, rfl, by decide, by decide⟩

/-- Claim C4 (amended): for an image file, the no-EXIF-data warning is
appended exactly when reading the embedded metadata throws; a successful
read with no usable date field appends no such warning, and extraction
returns without raising in both cases. -/
theorem exif_warning_iff_load_throws (env : JsEnv) (config : ValidationConfig)
    (nm mt : String) (sz : ℚ) (dt : FileData) (lmd : Option Int)
    (hnm : nm ≠ "") (hsz : sz ≠ 0) (himg : strStartsWith mt "image/" = true) :
    ∃ m, extractFileMetadata env (some ⟨some nm, some mt, some sz, some dt, lmd⟩) config =
        Except.ok m ∧
      (noExifWarnMsg ∈ m.validationWarnings ↔ env.exifLoad dt = none) := by
  have hmt : mt ≠ "" := by
    intro h
    rw [h] at himg
    exact absurd himg (by decide)
  refine ⟨buildMetadata env config nm mt sz dt lmd,
    extract_some_eq_build env config nm mt sz dt lmd hnm hmt hsz, ?_⟩
  rw [buildMetadata_warnings, exifStep_warnings_eq]
  cases hl : env.exifLoad dt with
  | none => simp [himg, hl]
  | some tags =>
    have hne : noExifWarnMsg ≠ currentTimeWarnMsg := by decide
    by_cases hcond : (exifStep env mt dt).createdAt = none ∧ lmd = none ∧
        config.requireOriginalPhoto = false
    · simp [hl, hcond, hne]
    · simp [hl, hcond]

/-- Witness for C4: with a throwing load the warning is present (the right
side of the equivalence holds). -/
theorem exif_warning_iff_load_throws_witness :
    envPlain.exifLoad [1] = none ∧
    (∃ m, extractFileMetadata envPlain
        (some ⟨some "a.jpg", some "image/jpeg", some 4, some [1], none⟩)
        DEFAULT_VALIDATION_CONFIG = Except.ok m ∧
      (noExifWarnMsg ∈ m.validationWarnings ↔ envPlain.exifLoad [1] = none)) :=
  ⟨rfl, exif_warning_iff_load_throws envPlain DEFAULT_VALIDATION_CONFIG
    "a.jpg" "image/jpeg" 4 [1] none (by decide) (by decide) (by decide)⟩

/-- Claim C5, counterexample: an image file whose metadata carries a numeric
quality tag but no date field keeps `qualityScore = null` — the quality tag
is only read at the success point of the date search. -/
theorem qualityScore_null_despite_quality_tag :
    envQualityOnly.exifLoad [1] = some tagsQualityOnly ∧
    tagsQualityOnly.Quality = some "85" ∧
    envQualityOnly.parseIntStr "85" = some 85 ∧
    resultOk (extractFileMetadata envQualityOnly (some imageFile)
      DEFAULT_VALIDATION_CONFIG) = true ∧
    qualityOfResult (extractFileMetadata envQualityOnly (some imageFile)
      DEFAULT_VALIDATION_CONFIG) = none ∧
    qualityOfResult (extractFileMetadata envQualityOnly (some imageFile)
      DEFAULT_VALIDATION_CONFIG) ≠ some (some ((85 : ℚ) / 100)) := by
  exact ⟨rfl, rfl, by decide, by decide, by decide, by decide⟩

/-- Claim C5 (amended): when the metadata of an image file carries a quality
tag with numeric description and the date search succeeded, `qualityScore`
is that numeric value divided by 100. -/
theorem qualityScore_derived_when_exif_date_found (env : JsEnv)
    (config : ValidationConfig) (nm mt : String) (sz : ℚ) (dt : FileData)
    (lmd : Option Int) (tags : ExifTags) (qd : String) (q : Int)
    (hnm : nm ≠ "") (hsz : sz ≠ 0) (himg : strStartsWith mt "image/" = true)
    (hload : env.exifLoad dt = some tags)
    (hfound : (findExifDate env (dateFieldDescriptions tags)).isSome = true)
    (hq : tags.Quality = some qd) (hqi : env.parseIntStr qd = some q) :
    ∃ m, extractFileMetadata env (some ⟨some nm, some mt, some sz, some dt, lmd⟩) config =
        Except.ok m ∧ m.qualityScore = some (some ((q : ℚ) / 100)) := by
  have hmt : mt ≠ "" := by
    intro h
    rw [h] at himg
    exact absurd himg (by decide)
  refine ⟨buildMetadata env config nm mt sz dt lmd,
    extract_some_eq_build env config nm mt sz dt lmd hnm hmt hsz, ?_⟩
  rw [buildMetadata_qualityScore]
  simp [exifStep, himg, hload, hfound, exifQuality, hq, hqi]

/-- Witness for C5: quality tag "85" with a parseable `DateTimeOriginal`
gives `qualityScore = 85/100`. -/
theorem qualityScore_derived_when_exif_date_found_witness :
    envQualityDate.exifLoad [1] = some tagsQualityDate ∧
    tagsQualityDate.Quality = some "85" ∧
    envQualityDate.parseIntStr "85" = some 85 ∧
    (∃ m, extractFileMetadata envQualityDate
        (some ⟨some "a.jpg", some "image/jpeg", some 4, some [1], none⟩)
        DEFAULT_VALIDATION_CONFIG = Except.ok m ∧
      m.qualityScore = some (some ((85 : ℚ) / 100))) :=
  ⟨rfl, rfl, by decide,
    qualityScore_derived_when_exif_date_found envQualityDate
      DEFAULT_VALIDATION_CONFIG "a.jpg" "image/jpeg" 4 [1] none
      tagsQualityDate "85" 85 (by decide) (by decide) (by decide) rfl
      (by decide) rfl (by decide)⟩

/-- Claim C6: with no EXIF-derived creation date, a present
`lastModifiedDate` becomes `createdAt` with provenance
`["lastModifiedDate"]`; otherwise the current time is used with provenance
`["current"]`, adding the blocking cannot-verify error exactly when
`requireOriginalPhoto` is true and only the advisory current-time warning
when it is false. -/
theorem fallback_lastModified_then_current (env : JsEnv)
    (config : ValidationConfig) (nm mt : String) (sz : ℚ) (dt : FileData)
    (lmd : Option Int) (hnm : nm ≠ "") (hmt : mt ≠ "") (hsz : sz ≠ 0)
    (hnoexif : (exifStep env mt dt).createdAt = none) :
    ∃ m, extractFileMetadata env (some ⟨some nm, some mt, some sz, some dt, lmd⟩) config =
        Except.ok m ∧
      (∀ lm, lmd = some lm →
        m.createdAt = some lm ∧
        m.possibleCreationSources = ["lastModifiedDate"]) ∧
      (lmd = none →
        m.createdAt = some env.now ∧
        m.possibleCreationSources = ["current"] ∧
        (config.requireOriginalPhoto = true →
          m.validationErrors =
            sizeCheckErrors config sz ++ typeCheckErrors config mt ++
              [noVerifyErrMsg] ∧
          m.validationWarnings = (exifStep env mt dt).warnings) ∧
        (config.requireOriginalPhoto = false →
          m.validationErrors =
            sizeCheckErrors config sz ++ typeCheckErrors config mt ∧
          m.validationWarnings =
            (exifStep env mt dt).warnings ++ [currentTimeWarnMsg])) := by
  have hsrc : (exifStep env mt dt).sources = [] := by
    rw [exifStep_sources_eq, hnoexif]
    rfl
  refine ⟨buildMetadata env config nm mt sz dt lmd,
    extract_some_eq_build env config nm mt sz dt lmd hnm hmt hsz, ?_, ?_⟩
  · intro lm hlm
    subst hlm
    constructor <;> simp [buildMetadata, hnoexif, hsrc]
  · intro hlmd
    subst hlmd
    cases hr : config.requireOriginalPhoto <;>
      simp [buildMetadata, hnoexif, hsrc, hr]

/-- Witness for C6: no image metadata and no `lastModifiedDate` under the
default configuration — current time, `["current"]`, warning only. -/
theorem fallback_lastModified_then_current_witness :
    (exifStep envPlain "application/pdf" [1]).createdAt = none ∧
    (∃ m, extractFileMetadata envPlain
        (some ⟨some "d.pdf", some "application/pdf", some 4, some [1], none⟩)
        DEFAULT_VALIDATION_CONFIG = Except.ok m ∧
      (∀ lm, (none : Option Int) = some lm →
        m.createdAt = some lm ∧
        m.possibleCreationSources = ["lastModifiedDate"]) ∧
      ((none : Option Int) = none →
        m.createdAt = some envPlain.now ∧
        m.possibleCreationSources = ["current"] ∧
        (DEFAULT_VALIDATION_CONFIG.requireOriginalPhoto = true →
          m.validationErrors =
            sizeCheckErrors DEFAULT_VALIDATION_CONFIG 4 ++
              typeCheckErrors DEFAULT_VALIDATION_CONFIG "application/pdf" ++
              [noVerifyErrMsg] ∧
          m.validationWarnings = (exifStep envPlain "application/pdf" [1]).warnings) ∧
        (DEFAULT_VALIDATION_CONFIG.requireOriginalPhoto = false →
          m.validationErrors =
            sizeCheckErrors DEFAULT_VALIDATION_CONFIG 4 ++
              typeCheckErrors DEFAULT_VALIDATION_CONFIG "application/pdf" ∧
          m.validationWarnings =
            (exifStep envPlain "application/pdf" [1]).warnings ++
              [currentTimeWarnMsg]))) :=
  ⟨by decide,
    fallback_lastModified_then_current envPlain DEFAULT_VALIDATION_CONFIG
      "d.pdf" "application/pdf" 4 [1] none (by decide) (by decide)
      (by decide) (by decide)⟩

/-- Claim C7: for populated `createdAt`, the verdict is true exactly when
the creation time lies in the closed buffered window
[eventStart - buffer, eventEnd + buffer]. -/
theorem creation_time_valid_iff_in_buffered_window (m : FileMetadata)
    (t eventStart eventEnd : Int) (config : ValidationConfig)
    (h : m.createdAt = some t) :
    ∃ r, validateFileCreationTime m eventStart eventEnd config = some r ∧
      (r.isValid = true ↔
        (eventStart - config.timeBufferMinutes * 60 * 1000 ≤ t ∧
         t ≤ eventEnd + config.timeBufferMinutes * 60 * 1000)) := by
  simp only [validateFileCreationTime, h]
  refine ⟨_, rfl, ?_⟩
  simp

/-- Witness for C7: the 07:59 file against the 09:00-17:00 window. -/
theorem creation_time_valid_iff_in_buffered_window_witness :
    metaSevenFiftyNine.createdAt = some 28740000 ∧
    (∃ r, validateFileCreationTime metaSevenFiftyNine 32400000 61200000
        DEFAULT_VALIDATION_CONFIG = some r ∧
      (r.isValid = true ↔
        (32400000 - DEFAULT_VALIDATION_CONFIG.timeBufferMinutes * 60 * 1000 ≤ 28740000 ∧
         28740000 ≤ 61200000 + DEFAULT_VALIDATION_CONFIG.timeBufferMinutes * 60 * 1000))) :=
  ⟨rfl, creation_time_valid_iff_in_buffered_window metaSevenFiftyNine
    28740000 32400000 61200000 DEFAULT_VALIDATION_CONFIG rfl⟩

/-- Claim C8: on an invalid verdict the offset is the floored, non-negative
whole number of minutes between the creation time and the violated buffered
bound, the message states that count with the direction, and on a valid
verdict the offset is absent.  (When the creation time precedes the buffered
start, that side wins, as in the source's `if`/`else`.) -/
theorem time_offset_and_message_on_violation (m : FileMetadata)
    (t eventStart eventEnd : Int) (config : ValidationConfig)
    (h : m.createdAt = some t) :
    ∃ r, validateFileCreationTime m eventStart eventEnd config = some r ∧
      (r.isValid = true → r.details.timeOffset = none) ∧
      (t < eventStart - config.timeBufferMinutes * 60 * 1000 →
        r.isValid = false ∧
        r.details.timeOffset =
          some (Int.fdiv (eventStart - config.timeBufferMinutes * 60 * 1000 - t)
            (1000 * 60)) ∧
        0 ≤ Int.fdiv (eventStart - config.timeBufferMinutes * 60 * 1000 - t)
            (1000 * 60) ∧
        r.details.message =
          invalidTimeMsg
            (Int.fdiv (eventStart - config.timeBufferMinutes * 60 * 1000 - t)
              (1000 * 60)) "before") ∧
      (¬ t < eventStart - config.timeBufferMinutes * 60 * 1000 →
        eventEnd + config.timeBufferMinutes * 60 * 1000 < t →
        r.isValid = false ∧
        r.details.timeOffset =
          some (Int.fdiv (t - (eventEnd + config.timeBufferMinutes * 60 * 1000))
            (1000 * 60)) ∧
        0 ≤ Int.fdiv (t - (eventEnd + config.timeBufferMinutes * 60 * 1000))
            (1000 * 60) ∧
        r.details.message =
          invalidTimeMsg
            (Int.fdiv (t - (eventEnd + config.timeBufferMinutes * 60 * 1000))
              (1000 * 60)) "after") := by
  simp only [validateFileCreationTime, h]
  refine ⟨_, rfl, ?_, ?_, ?_⟩
  · intro hv
    have hb : (decide (eventStart - config.timeBufferMinutes * 60 * 1000 ≤ t) &&
        decide (t ≤ eventEnd + config.timeBufferMinutes * 60 * 1000)) = true := hv
    simp only [hb]
    rfl
  · intro hlt
    have h1 : ¬ (eventStart - config.timeBufferMinutes * 60 * 1000 ≤ t) :=
      not_le.mpr hlt
    refine ⟨by simp [h1], by simp [h1, hlt], ?_, by simp [h1, hlt]⟩
    exact Int.fdiv_nonneg (by omega) (by omega)
  · intro hge hgt
    have h1 : eventStart - config.timeBufferMinutes * 60 * 1000 ≤ t :=
      not_lt.mp hge
    have h2 : ¬ (t ≤ eventEnd + config.timeBufferMinutes * 60 * 1000) :=
      not_le.mpr hgt
    refine ⟨by simp [h2], by simp [h1, h2, hge], ?_, by simp [h1, h2, hge]⟩
    exact Int.fdiv_nonneg (by omega) (by omega)

/-- Witness for C8: the spec's 07:59 example — one minute before the
buffered window, message naming 1 minute and "before". -/
theorem time_offset_and_message_on_violation_witness :
    metaSevenFiftyNine.createdAt = some 28740000 ∧
    (∃ r, validateFileCreationTime metaSevenFiftyNine 32400000 61200000
        DEFAULT_VALIDATION_CONFIG = some r ∧
      r.isValid = false ∧ r.details.timeOffset = some 1 ∧
      r.details.message = invalidTimeMsg 1 "before") := by
  refine ⟨rfl, ?_⟩
  obtain ⟨r, hr, hvalid, hbefore, hafter⟩ :=
    time_offset_and_message_on_violation metaSevenFiftyNine 28740000
      32400000 61200000 DEFAULT_VALIDATION_CONFIG rfl
  have hoff : Int.fdiv
      (32400000 - DEFAULT_VALIDATION_CONFIG.timeBufferMinutes * 60 * 1000 - 28740000)
      (1000 * 60) = 1 := by decide
  have hb := hbefore (by decide)
  rw [hoff] at hb
  exact ⟨r, hr, hb.1, hb.2.1, hb.2.2.2⟩

/-- The running verdict flag of `validateEventTimes` is cleared exactly when
some check appended an error. -/
theorem validateEventTimes_isValid_iff (clock : NowClock)
    (sd ed st et : String) :
    (validateEventTimes clock sd ed st et).isValid = true ↔
      (validateEventTimes clock sd ed st et).errors = [] := by
  simp only [validateEventTimes]
  cases h1 : jsLt (dateOnlyMillis sd) (some (todayMillis clock)) <;>
  cases h2 : jsLt (dateOnlyMillis ed) (dateOnlyMillis sd) <;>
  cases h3 : jsEqT (dateOnlyMillis sd) (some (todayMillis clock)) &&
    jsLt (combineDateAndTime sd st) (some (nowMillis clock)) <;>
  cases h4 : decide (sd = ed) &&
    jsLt (combineDateAndTime ed et) (combineDateAndTime sd st) <;>
    simp [h1, h2, h3, h4]

/-- Claim C9: on well-formed inputs the four checks (start date past, end
date before start date, start today with start datetime passed, same-day end
time before start time) contribute their errors independently — the error
sequence is the concatenation of the four checks' findings, so several can
fail at once — and the verdict is true exactly when that sequence is
empty. -/
theorem event_time_checks_independent (clock : NowClock)
    (sd ed st et : String) (sD eD sT eT : Int)
    (hsd : dateOnlyMillis sd = some sD) (hed : dateOnlyMillis ed = some eD)
    (hst : combineDateAndTime sd st = some sT)
    (het : combineDateAndTime ed et = some eT) :
    (validateEventTimes clock sd ed st et).errors =
      (if sD < todayMillis clock then [startPastMsg] else []) ++
      (if eD < sD then [endBeforeStartMsg] else []) ++
      (if sD = todayMillis clock ∧ sT < nowMillis clock then [startTimePastMsg]
       else []) ++
      (if sd = ed ∧ eT < sT then [endTimeBeforeMsg] else []) ∧
    ((validateEventTimes clock sd ed st et).isValid = true ↔
      (validateEventTimes clock sd ed st et).errors = []) := by
  refine ⟨?_, validateEventTimes_isValid_iff clock sd ed st et⟩
  have e1 : jsLt (dateOnlyMillis sd) (some (todayMillis clock)) =
      decide (sD < todayMillis clock) := by rw [hsd]; rfl
  have e2 : jsLt (dateOnlyMillis ed) (dateOnlyMillis sd) =
      decide (eD < sD) := by rw [hsd, hed]; rfl
  have e3 : jsEqT (dateOnlyMillis sd) (some (todayMillis clock)) =
      decide (sD = todayMillis clock) := by rw [hsd]; rfl
  have e4 : jsLt (combineDateAndTime sd st) (some (nowMillis clock)) =
      decide (sT < nowMillis clock) := by rw [hst]; rfl
  have e5 : jsLt (combineDateAndTime ed et) (combineDateAndTime sd st) =
      decide (eT < sT) := by rw [het, hst]; rfl
  simp only [validateEventTimes, e1, e2, e3, e4, e5, Bool.and_eq_true,
    decide_eq_true_eq]

/-- Witness for C9: a start date in the past together with an end date
before the start date — both errors appear at once and the verdict is
false. -/
theorem event_time_checks_independent_witness :
    dateOnlyMillis "2024-06-10" = some 1717977600000 ∧
    dateOnlyMillis "2024-06-05" = some 1717545600000 ∧
    (validateEventTimes clockW "2024-06-10" "2024-06-05" "10:00" "09:00").errors =
      [startPastMsg, endBeforeStartMsg] ∧
    (validateEventTimes clockW "2024-06-10" "2024-06-05" "10:00" "09:00").isValid =
      false := by
  have h := event_time_checks_independent clockW "2024-06-10" "2024-06-05"
    "10:00" "09:00" 1717977600000 1717545600000 1718013600000 1717578000000
    (by decide) (by decide) (by decide) (by decide)
  refine ⟨by decide, by decide, ?_, ?_⟩
  · rw [h.1]
    decide
  · have he : (validateEventTimes clockW "2024-06-10" "2024-06-05" "10:00"
        "09:00").errors ≠ [] := by
      rw [h.1]
      decide
    cases hb : (validateEventTimes clockW "2024-06-10" "2024-06-05" "10:00"
        "09:00").isValid
    · rfl
    · exact absurd (h.2.mp hb) he

/-- Every returned metadata carries a creation time and exactly one
provenance tag. -/
theorem buildMetadata_single_source (env : JsEnv) (config : ValidationConfig)
    (nm mt : String) (sz : ℚ) (dt : FileData) (lmd : Option Int) :
    (buildMetadata env config nm mt sz dt lmd).createdAt.isSome = true ∧
      ((buildMetadata env config nm mt sz dt lmd).possibleCreationSources = ["EXIF"] ∨
       (buildMetadata env config nm mt sz dt lmd).possibleCreationSources = ["lastModifiedDate"] ∨
       (buildMetadata env config nm mt sz dt lmd).possibleCreationSources = ["current"]) := by
  have hs := exifStep_sources_eq env mt dt
  unfold buildMetadata
  cases hc : (exifStep env mt dt).createdAt <;> cases lmd <;>
    cases hr : config.requireOriginalPhoto <;> simp [hc, hr, hs]

/-- Claim C10: every metadata returned by extraction (no input error) has a
populated `createdAt` and a `possibleCreationSources` of exactly one
element, among "EXIF", "lastModifiedDate" and "current". -/
theorem metadata_has_single_creation_source (env : JsEnv)
    (file : Option RawFile) (config : ValidationConfig) (m : FileMetadata)
    (h : extractFileMetadata env file config = Except.ok m) :
    m.createdAt.isSome = true ∧
      (m.possibleCreationSources = ["EXIF"] ∨
       m.possibleCreationSources = ["lastModifiedDate"] ∨
       m.possibleCreationSources = ["current"]) := by
  cases file with
  | none => simp [extractFileMetadata] at h
  | some f =>
    obtain ⟨na, mi, si, da, la⟩ := f
    cases na <;> cases mi <;> cases si <;> cases da <;>
      simp [extractFileMetadata] at h
    case some.some.some.some a b c d =>
      by_cases hg : a = "" ∨ b = "" ∨ c = 0
      · simp [hg] at h
      · simp [hg] at h
        subst h
        exact buildMetadata_single_source env config a b c d la

/-- Witness for C10: a plain image upload with no usable signals still ends
with a creation time and a single provenance tag. -/
theorem metadata_has_single_creation_source_witness :
    extractFileMetadata envPlain
      (some ⟨some "a.jpg", some "image/jpeg", some 4, some [1], none⟩)
      DEFAULT_VALIDATION_CONFIG = Except.ok sampleMetadata ∧
    (sampleMetadata.createdAt.isSome = true ∧
      (sampleMetadata.possibleCreationSources = ["EXIF"] ∨
       sampleMetadata.possibleCreationSources = ["lastModifiedDate"] ∨
       sampleMetadata.possibleCreationSources = ["current"])) := by
  have h : extractFileMetadata envPlain
      (some ⟨some "a.jpg", some "image/jpeg", some 4, some [1], none⟩)
      DEFAULT_VALIDATION_CONFIG = Except.ok sampleMetadata :=
    extract_some_eq_build envPlain DEFAULT_VALIDATION_CONFIG "a.jpg"
      "image/jpeg" 4 [1] none (by decide) (by decide) (by decide)
  exact ⟨h, metadata_has_single_creation_source envPlain _ _ sampleMetadata h⟩

end SocialEvent
